import Mathlib

/-!
Shallow embedding of the robot-backend WebSocket relay (`src/server.js`).

JavaScript numbers appearing in teleop payloads are modelled by `JsNum`:
a rational (every IEEE double that is finite is a rational, and the clamp
pipeline only compares and selects values, never does arithmetic on them),
or one of the special values NaN, +Infinity, -Infinity.  Absent JSON
fields are modelled with `Option`.  String truthiness ("" is falsy) and
number truthiness (0 is falsy) are modelled explicitly where the source
relies on them.

Registries (`robots`, `uiClients`, JS `Map`s) are association lists with
`Map.set` / `Map.get` / `Map.delete` semantics; JS `Set`s of robot ids are
duplicate-free lists in insertion order.  Each handler of the source is
one Lean function returning the new state together with the list of
emitted outputs (sends, broadcasts, socket terminations).
-/

set_option maxRecDepth 4000

/-- A JavaScript number: NaN, an infinity, or a finite (rational) value. -/
inductive JsNum where
  | nan
  | posInf
  | negInf
  | num (q : ℚ)
deriving DecidableEq

/-- `Number(x)` for a field that is either absent (`undefined`, giving NaN)
or already a number. -/
def toNumber : Option JsNum → JsNum
  | none => JsNum.nan
  | some v => v

/-- `x || 0` on numbers: the falsy numbers are NaN, +0 and -0, each of which
`||` replaces by the literal `0`; in this rational model that leaves every
non-NaN value unchanged. -/
def jsOrZero : JsNum → JsNum
  | JsNum.nan => JsNum.num 0
  | v => v

/-- `Math.min`: NaN-propagating minimum with infinities. -/
def jsMin : JsNum → JsNum → JsNum
  | JsNum.nan, _ => JsNum.nan
  | _, JsNum.nan => JsNum.nan
  | JsNum.negInf, _ => JsNum.negInf
  | _, JsNum.negInf => JsNum.negInf
  | JsNum.posInf, b => b
  | a, JsNum.posInf => a
  | JsNum.num a, JsNum.num b => JsNum.num (min a b)

/-- `Math.max`: NaN-propagating maximum with infinities. -/
def jsMax : JsNum → JsNum → JsNum
  | JsNum.nan, _ => JsNum.nan
  | _, JsNum.nan => JsNum.nan
  | JsNum.posInf, _ => JsNum.posInf
  | _, JsNum.posInf => JsNum.posInf
  | JsNum.negInf, b => b
  | a, JsNum.negInf => a
  | JsNum.num a, JsNum.num b => JsNum.num (max a b)

/-- `function clamp(value, min, max) { return Math.max(min, Math.min(max, value)); }` -/
def clamp (value minV maxV : JsNum) : JsNum := jsMax minV (jsMin maxV value)

/-- `CONFIG.maxLinearVelocity = 0.5` (written as a ready-reduced rational so
that concrete runs evaluate by `decide`; `maxLinearVelocity_eq` below checks
the value). -/
def maxLinearVelocity : ℚ := mkRat 1 2

/-- `CONFIG.maxAngularVelocity = 1.5` -/
def maxAngularVelocity : ℚ := mkRat 3 2

/-- `CONFIG.robotTimeoutMs = 60000` -/
def robotTimeoutMs : Nat := 60000

/-- `CONFIG.controlIdleTimeoutMs = 60000` -/
def controlIdleTimeoutMs : Nat := 60000

/-- `CONFIG.validModes = ['idle', 'slam', 'nav', 'localization']` -/
def validModes : List String := ["idle", "slam", "nav", "localization"]

/-- `a || b` on string-valued fields: `a` wins unless it is absent or `""`. -/
def jsOr : Option String → Option String → Option String
  | some s, b => if s = "" then b else some s
  | none, b => b

/-- `a || d` with a definite (truthy) default string `d`. -/
def jsOrD (a : Option String) (d : String) : String :=
  match a with
  | some s => if s = "" then d else s
  | none => d

/-- Truthiness of a string-valued field: absent and `""` are falsy. -/
def strTruthy : Option String → Bool
  | some s => decide (s ≠ "")
  | none => false

/-- `x || null` on a string field (used in lease projections). -/
def orNullStr : Option String → Option String
  | some s => if s = "" then none else some s
  | none => none

/-- `x || null` on a number (timestamp) field: 0 is falsy. -/
def orNullNat : Option Nat → Option Nat
  | some n => if n = 0 then none else some n
  | none => none

/-- Template-literal rendering of a possibly-null string field. -/
def displayNull : Option String → String
  | some s => s
  | none => "null"

/-- An entry of the robot's POI catalogue; only `id` and `name` are consulted
by the server (`p.id === poiId || p.name === poiId`). -/
structure Poi where
  id : Option String := none
  name : Option String := none
deriving DecidableEq

/-- `battery` sub-object of a telemetry payload. -/
structure Battery where
  percent : Option ℚ := none
  voltage : Option ℚ := none
deriving DecidableEq

/-- `nav` sub-object of a telemetry payload. -/
structure NavInfo where
  navState : Option String := none
  currentGoalPoiId : Option String := none
  lastResult : Option String := none
deriving DecidableEq

/-- `maps` sub-object of a telemetry payload. -/
structure MapsInfo where
  active : Option String := none
  available : List String := []
deriving DecidableEq

/-- A structured telemetry payload (`message.payload`); the server treats it
as opaque except for the POI list. -/
structure TelemetryPayload where
  mode : Option String := none
  pose : Option (ℚ × ℚ × ℚ) := none
  battery : Option Battery := none
  nav : Option NavInfo := none
  maps : Option MapsInfo := none
  pois : Option (List Poi) := none
deriving DecidableEq

/-- A `telemetry` frame from the robot, with both the structured `payload`
form and the legacy flat top-level fields. -/
structure TelemetryMsg where
  robotId : Option String := none
  robot_id : Option String := none
  payload : Option TelemetryPayload := none
  mode : Option String := none
  state : Option String := none
  pose : Option (ℚ × ℚ × ℚ) := none
  battery : Option Battery := none
  battery_voltage : Option ℚ := none
  nav : Option NavInfo := none
  maps : Option MapsInfo := none
  map : Option String := none
  available_maps : Option (List String) := none
  pois : Option (List Poi) := none
deriving DecidableEq

/-- The telemetry object stored in a robot record: the empty object `{}`
written at registration, the structured `message.payload`, or the object
synthesised from the flat fields of a telemetry frame
(`robot.telemetry = message.payload || { mode: ..., pois: message.pois || [], ... }`). -/
inductive StoredTelemetry where
  | empty
  | fromPayload (p : TelemetryPayload)
  | synthesized (m : TelemetryMsg)
deriving DecidableEq

/-- `robot.telemetry?.pois || []`: the POI catalogue of a stored telemetry
object (the synthesised object carries `message.pois || []` in its `pois`
field, so both non-empty forms reduce to the message's list or `[]`). -/
def StoredTelemetry.poisList : StoredTelemetry → List Poi
  | StoredTelemetry.empty => []
  | StoredTelemetry.fromPayload p => p.pois.getD []
  | StoredTelemetry.synthesized m => m.pois.getD []

/-- The per-robot control lease (`robot.control`); unowned is all-null. -/
structure ControlLease where
  ownerClientId : Option String := none
  ownerName : Option String := none
  since : Option Nat := none
  lastCommandAt : Option Nat := none
deriving DecidableEq

/-- `{ ownerClientId: null, ownerName: null, since: null, lastCommandAt: null }` -/
def ControlLease.empty : ControlLease := {}

/-- One entry of the `robots` map.  `sockId` identifies the WebSocket handle
(`robot.ws`); `clientId` is the random id generated at registration. -/
structure RobotRecord where
  sockId : Nat
  clientId : String
  lastSeen : Nat
  version : String
  capabilities : List String
  telemetry : StoredTelemetry
  control : ControlLease
deriving DecidableEq

/-- One entry of the `uiClients` map. -/
structure ClientRecord where
  sockId : Nat
  clientId : String
  clientName : String
  subscribedRobots : List String
  connectedAt : Nat
deriving DecidableEq

/-- The whole mutable server state: the `robots` and `uiClients` maps. -/
structure ServerState where
  robots : List (String × RobotRecord)
  uiClients : List (String × ClientRecord)
deriving DecidableEq

/-- The state at process start: both maps empty. -/
def initState : ServerState := ⟨[], []⟩

/-- `Map.get`: the value at the first matching key, if any. -/
def lookupKey {β : Type} (k : String) : List (String × β) → Option β
  | [] => none
  | (k', v) :: rest => if k = k' then some v else lookupKey k rest

/-- `Map.set`: replace the entry in place, or append a new one. -/
def setKey {β : Type} (k : String) (v : β) : List (String × β) → List (String × β)
  | [] => [(k, v)]
  | (k', v') :: rest => if k = k' then (k, v) :: rest else (k', v') :: setKey k v rest

/-- `Map.delete`: drop the entry with the given key. -/
def delKey {β : Type} (k : String) (l : List (String × β)) : List (String × β) :=
  l.filter (fun p => decide (p.1 ≠ k))

/-- `Set.add`: append if absent. -/
def setAdd (x : String) (s : List String) : List String :=
  if x ∈ s then s else s ++ [x]

/-- `Set.delete`: remove the element if present. -/
def setDel (x : String) : List String → List String
  | [] => []
  | y :: rest => if y = x then rest else y :: setDel x rest

/-- A robot-bound command frame (`{ type: 'command', command, ... }`);
absent fields are `none`. -/
structure RobotCommand where
  command : String
  linear_x : Option JsNum := none
  angular_z : Option JsNum := none
  mode : Option String := none
  map_name : Option String := none
  poi_id : Option String := none
deriving DecidableEq

/-- An `error` frame sent to one operator. -/
structure ErrFrame where
  code : String
  message : String
  holder : Option String := none
  availablePois : Option (List (Option String)) := none
deriving DecidableEq

/-- The `payload.kind` of an `event` frame, with the extra fields each kind
carries in the source. -/
inductive EventKind where
  | robot_online (version : Option String)
  | robot_offline (reason : String)
  | control_acquired (ownerClientId : String) (ownerName : String)
  | control_confirmed
  | control_released (reason : Option String) (previousOwner : Option String)
  | control_forced (ownerClientId : String) (ownerName : String) (previousOwner : Option String)
  | command_result (command : Option String) (success : Option Bool)
      (message : Option String) (timestamp : Option String)
deriving DecidableEq

/-- Payload of a `state` broadcast to subscribers: the stored telemetry plus
the lease projection and `online: true`. -/
structure StatePayload where
  telemetry : StoredTelemetry
  ownerClientId : Option String
  ownerName : Option String
  online : Bool
deriving DecidableEq

/-- The full projection built by `getRobotState` for a known robot
(`online` is always `true` there and is left implicit). -/
structure RobotStateView where
  robotId : String
  lastSeen : Nat
  version : String
  capabilities : List String
  telemetry : StoredTelemetry
  ownerClientId : Option String
  ownerName : Option String
  since : Option Nat
deriving DecidableEq

/-- Everything the server emits while handling one event: frames to single
sockets, the two broadcast primitives, and socket terminations. -/
inductive Output where
  | welcomeRobot (sockId : Nat) (robotId : String)
  | welcomeClient (sockId : Nat) (clientId : String) (robots : List (Option RobotStateView))
  | toRobot (sockId : Nat) (cmd : RobotCommand)
  | toClientEvent (sockId : Nat) (robotId : String) (kind : EventKind)
  | toClientError (sockId : Nat) (err : ErrFrame)
  | toClientState (sockId : Nat) (robotId : String) (snapshot : Option RobotStateView)
  | broadcastAll (robotId : Option String) (kind : EventKind)
  | broadcastSubscribers (robotId : Option String) (kind : EventKind)
  | broadcastState (robotId : String) (payload : StatePayload)
  | terminate (sockId : Nat)
  | pong (sockId : Nat)
deriving DecidableEq

/-- `getRobotState(robotId)`: `null` for an unknown robot, otherwise the
snapshot projection with the `x || null` lease view. -/
def getRobotState (s : ServerState) (robotId : String) : Option RobotStateView :=
  match lookupKey robotId s.robots with
  | none => none
  | some robot => some {
      robotId := robotId,
      lastSeen := robot.lastSeen,
      version := robot.version,
      capabilities := robot.capabilities,
      telemetry := robot.telemetry,
      ownerClientId := orNullStr robot.control.ownerClientId,
      ownerName := orNullStr robot.control.ownerName,
      since := orNullNat robot.control.since }

/-- A `hello` / `register` frame from a robot. -/
structure HelloMsg where
  robotId : Option String := none
  robot_id : Option String := none
  version : Option String := none
  capabilities : Option (List String) := none
deriving DecidableEq

/-- A `command_result` frame from a robot. -/
structure CommandResultMsg where
  robotId : Option String := none
  robot_id : Option String := none
  command : Option String := none
  success : Option Bool := none
  message : Option String := none
  timestamp : Option String := none
deriving DecidableEq

/-- Frames a robot session can receive, discriminated by `message.type`. -/
inductive RobotMsg where
  | hello (m : HelloMsg)
  | register (m : HelloMsg)
  | telemetry (m : TelemetryMsg)
  | command_result (m : CommandResultMsg)
  | other (typ : String)

/-- The `hello` / `register` branch of the robot message handler:
resolve the id (`message.robotId || message.robot_id || 'fordward'`),
terminate any previously registered socket for that id, install a fresh
record (empty telemetry, unowned lease), answer `welcome`, and broadcast
`robot_online` to all operators.  Returns the new session-local `robotId`
binding together with the new state and outputs. -/
def handleHello (s : ServerState) (sockId : Nat) (fresh : String) (now : Nat)
    (m : HelloMsg) : Option String × ServerState × List Output :=
  let rid := jsOrD (jsOr m.robotId m.robot_id) "fordward"
  let closeOld : List Output :=
    match lookupKey rid s.robots with
    | some existing => [Output.terminate existing.sockId]
    | none => []
  let newRec : RobotRecord := {
    sockId := sockId,
    clientId := fresh,
    lastSeen := now,
    version := jsOrD m.version "0.0.0",
    capabilities := m.capabilities.getD ["pose", "battery", "mode"],
    telemetry := StoredTelemetry.empty,
    control := ControlLease.empty }
  (some rid,
   { s with robots := setKey rid newRec s.robots },
   closeOld ++ [Output.welcomeRobot sockId rid,
                Output.broadcastAll (some rid) (EventKind.robot_online m.version)])

/-- The `telemetry` branch: resolve the id (falling back to the session's
earlier binding), and if it is truthy and registered, refresh `lastSeen`,
store `message.payload || {synthesised flat fields}` and broadcast the new
`state` (with the lease projection) to this robot's subscribers; otherwise
do nothing beyond updating the session binding. -/
def handleTelemetry (s : ServerState) (sess : Option String) (now : Nat)
    (m : TelemetryMsg) : Option String × ServerState × List Output :=
  let rid? := jsOr (jsOr m.robotId m.robot_id) sess
  match rid? with
  | none => (none, s, [])
  | some rid =>
    if rid = "" then (rid?, s, []) else
    match lookupKey rid s.robots with
    | none => (rid?, s, [])
    | some robot =>
      let tele := match m.payload with
        | some p => StoredTelemetry.fromPayload p
        | none => StoredTelemetry.synthesized m
      let robot' := { robot with lastSeen := now, telemetry := tele }
      (rid?,
       { s with robots := setKey rid robot' s.robots },
       [Output.broadcastState rid {
          telemetry := tele,
          ownerClientId := orNullStr robot.control.ownerClientId,
          ownerName := orNullStr robot.control.ownerName,
          online := true }])

/-- The `command_result` branch: relay to the subscribers of the resolved
robot id as an `event`; no state change, session binding untouched. -/
def handleCommandResult (s : ServerState) (sess : Option String)
    (m : CommandResultMsg) : Option String × ServerState × List Output :=
  let target := jsOr (jsOr m.robotId m.robot_id) sess
  (sess, s,
   [Output.broadcastSubscribers target
      (EventKind.command_result m.command m.success m.message m.timestamp)])

/-- The robot socket's `message` handler, dispatching on `message.type`;
unknown types are logged and ignored. -/
def robotOnMessage (s : ServerState) (sess : Option String) (sockId : Nat)
    (fresh : String) (now : Nat) : RobotMsg → Option String × ServerState × List Output
  | RobotMsg.hello m => handleHello s sockId fresh now m
  | RobotMsg.register m => handleHello s sockId fresh now m
  | RobotMsg.telemetry m => handleTelemetry s sess now m
  | RobotMsg.command_result m => handleCommandResult s sess m
  | RobotMsg.other _ => (sess, s, [])

/-- The robot socket's `close` handler: if the session had a truthy robot id
that is still registered, delete that registry entry (whatever record is
stored there) and broadcast `robot_offline` with reason `"disconnected"`. -/
def robotOnClose (s : ServerState) (sess : Option String) : ServerState × List Output :=
  match sess with
  | none => (s, [])
  | some rid =>
    if rid = "" then (s, []) else
    match lookupKey rid s.robots with
    | none => (s, [])
    | some _ =>
      ({ s with robots := delKey rid s.robots },
       [Output.broadcastAll (some rid) (EventKind.robot_offline "disconnected")])

/-- `payload` of a `control` frame. -/
structure CtrlPayload where
  action : Option String := none
  clientName : Option String := none
deriving DecidableEq

/-- `payload` of a `command` frame; value fields modelled at the granularity
the pipeline consumes them. -/
structure CmdPayload where
  kind : Option String := none
  linear_x : Option JsNum := none
  angular_z : Option JsNum := none
  mode : Option String := none
  mapName : Option String := none
  map_name : Option String := none
  poiId : Option String := none
  poi_id : Option String := none
deriving DecidableEq

/-- Frames an operator session can receive, discriminated by `message.type`. -/
inductive UiMsg where
  | subscribe (robotId : Option String) (clientName : Option String)
  | unsubscribe (robotId : Option String)
  | control (robotId : Option String) (payload : Option CtrlPayload)
  | command (robotId : Option String) (payload : Option CmdPayload)
  | ping
  | other (typ : String)

/-- `subscribe`: add `message.robotId || 'fordward'` to the subscription
set, adopt a truthy `clientName`, and answer with a `state` snapshot for
that robot (`null` projection when unknown). -/
def handleSubscribe (s : ServerState) (cid : String) (client : ClientRecord)
    (robotIdField clientNameField : Option String) : ServerState × List Output :=
  let rid := jsOrD robotIdField "fordward"
  let client' := { client with
    subscribedRobots := setAdd rid client.subscribedRobots,
    clientName := jsOrD clientNameField client.clientName }
  ({ s with uiClients := setKey cid client' s.uiClients },
   [Output.toClientState client.sockId rid (getRobotState s rid)])

/-- `unsubscribe`: `Set.delete(message.robotId)` — note there is no
`'fordward'` default here, so an absent id deletes nothing. -/
def handleUnsubscribe (s : ServerState) (cid : String) (client : ClientRecord)
    (robotIdField : Option String) : ServerState × List Output :=
  let client' := { client with
    subscribedRobots := match robotIdField with
      | some rid => setDel rid client.subscribedRobots
      | none => client.subscribedRobots }
  ({ s with uiClients := setKey cid client' s.uiClients }, [])

/-- `control`: the lease state machine.  Unknown robot gives
`ROBOT_OFFLINE`; `request` grants, confirms, or denies; `release` by the
owner unowns and broadcasts, otherwise is silent; `force` always seizes
ownership; any other action falls through silently. -/
def handleControl (s : ServerState) (cid : String) (client : ClientRecord) (now : Nat)
    (robotIdField : Option String) (payload : Option CtrlPayload) : ServerState × List Output :=
  let rid := jsOrD robotIdField "fordward"
  let action := payload.bind (fun p => p.action)
  match lookupKey rid s.robots with
  | none =>
      (s, [Output.toClientError client.sockId
            { code := "ROBOT_OFFLINE", message := "Robot " ++ rid ++ " is not connected" }])
  | some robot =>
    if action = some "request" then
      if strTruthy robot.control.ownerClientId = false then
        let owner := jsOrD (payload.bind (fun p => p.clientName)) client.clientName
        let robot' := { robot with
          control := {
            ownerClientId := some cid, ownerName := some owner,
            since := some now, lastCommandAt := some now } }
        ({ s with robots := setKey rid robot' s.robots },
         [Output.broadcastSubscribers (some rid) (EventKind.control_acquired cid owner)])
      else if robot.control.ownerClientId = some cid then
        let robot' := { robot with control := { robot.control with lastCommandAt := some now } }
        ({ s with robots := setKey rid robot' s.robots },
         [Output.toClientEvent client.sockId rid EventKind.control_confirmed])
      else
        (s, [Output.toClientError client.sockId
              {
                code := "CONTROL_DENIED",
                message := "Control held by " ++ displayNull robot.control.ownerName,
                holder := robot.control.ownerName }])
    else if action = some "release" then
      if robot.control.ownerClientId = some cid then
        let robot' := { robot with control := ControlLease.empty }
        ({ s with robots := setKey rid robot' s.robots },
         [Output.broadcastSubscribers (some rid) (EventKind.control_released none none)])
      else (s, [])
    else if action = some "force" then
      let previousOwner := robot.control.ownerName
      let owner := jsOrD (payload.bind (fun p => p.clientName)) client.clientName
      let robot' := { robot with
        control := {
          ownerClientId := some cid, ownerName := some owner,
          since := some now, lastCommandAt := some now } }
      ({ s with robots := setKey rid robot' s.robots },
       [Output.broadcastSubscribers (some rid) (EventKind.control_forced cid owner previousOwner)])
    else (s, [])

/-- The motion kinds requiring the lease: `['teleop', 'goto_poi', 'dock', 'navigate']`. -/
def motionCommands : List String := ["teleop", "goto_poi", "dock", "navigate"]

/-- `motionCommands.includes(kind)`; an absent kind is not a motion kind. -/
def isMotionKind : Option String → Bool
  | some k => motionCommands.contains k
  | none => false

/-- The rendering of `kind` inside the `UNKNOWN_COMMAND` message. -/
def displayUndef : Option String → String
  | some s => s
  | none => "undefined"

/-- The `switch (kind)` of the command pipeline: validate and translate an
operator command into the robot-bound frame, or produce the error frame.
Runs after the control-lock check, on the (possibly `lastCommandAt`-refreshed)
robot record, whose telemetry it consults for `goto_poi`. -/
def validateCommand (robot : RobotRecord) (payload : CmdPayload) :
    Except ErrFrame RobotCommand :=
  match payload.kind with
  | some "teleop" =>
      Except.ok {
        command := "teleop",
        linear_x := some (clamp (jsOrZero (toNumber payload.linear_x))
          (JsNum.num (-maxLinearVelocity)) (JsNum.num maxLinearVelocity)),
        angular_z := some (clamp (jsOrZero (toNumber payload.angular_z))
          (JsNum.num (-maxAngularVelocity)) (JsNum.num maxAngularVelocity)) }
  | some "stop" => Except.ok { command := "stop" }
  | some "set_mode" =>
      match payload.mode with
      | some m =>
          if validModes.contains m then
            Except.ok { command := "set_mode", mode := some m }
          else
            Except.error {
              code := "INVALID_MODE",
              message := "Invalid mode: " ++ m ++ ". Valid: idle, slam, nav, localization" }
      | none =>
          Except.error {
            code := "INVALID_MODE",
            message := "Invalid mode: undefined. Valid: idle, slam, nav, localization" }
  | some "load_map" =>
      match jsOr payload.mapName payload.map_name with
      | some n =>
          if n = "" then Except.error { code := "MISSING_PARAM", message := "mapName required" }
          else Except.ok { command := "load_map", map_name := some n }
      | none => Except.error { code := "MISSING_PARAM", message := "mapName required" }
  | some "save_map" =>
      match jsOr payload.mapName payload.map_name with
      | some n =>
          if n = "" then Except.error { code := "MISSING_PARAM", message := "mapName required" }
          else Except.ok { command := "stop_slam", map_name := some n }
      | none => Except.error { code := "MISSING_PARAM", message := "mapName required" }
  | some "goto_poi" =>
      match jsOr payload.poiId payload.poi_id with
      | none => Except.error { code := "MISSING_PARAM", message := "poiId required" }
      | some pid =>
        if pid = "" then Except.error { code := "MISSING_PARAM", message := "poiId required" }
        else
          let knownPois := robot.telemetry.poisList
          let poiExists := knownPois.any
            (fun p => decide (p.id = some pid) || decide (p.name = some pid))
          if knownPois.length > 0 && poiExists = false then
            Except.error {
              code := "UNKNOWN_POI",
              message := "POI \"" ++ pid ++ "\" not found",
              availablePois := some (knownPois.map (fun p => jsOr p.id p.name)) }
          else Except.ok { command := "go_to_poi", poi_id := some pid }
  | some "cancel_nav" => Except.ok { command := "cancel_nav" }
  | some "start_slam" => Except.ok { command := "start_slam" }
  | some "restart" => Except.ok { command := "restart" }
  | k => Except.error {
           code := "UNKNOWN_COMMAND",
           message := "Unknown command kind: " ++ displayUndef k }

/-- `command`: unknown robot gives `ROBOT_OFFLINE`; a motion kind from a
non-owner gives `NO_CONTROL`; a motion kind from the owner first refreshes
`lease.lastCommandAt`; then the switch validates and translates, and a
successful translation is forwarded only if the robot socket is OPEN
(`openSock` gives each socket's openness). -/
def handleCommand (s : ServerState) (cid : String) (client : ClientRecord) (now : Nat)
    (openSock : Nat → Bool) (robotIdField : Option String) (payload? : Option CmdPayload) :
    ServerState × List Output :=
  let rid := jsOrD robotIdField "fordward"
  let payload := payload?.getD {}
  match lookupKey rid s.robots with
  | none =>
      (s, [Output.toClientError client.sockId
            { code := "ROBOT_OFFLINE", message := "Robot " ++ rid ++ " is not connected" }])
  | some robot =>
    if isMotionKind payload.kind = true ∧ robot.control.ownerClientId ≠ some cid then
      (s, [Output.toClientError client.sockId
            {
              code := "NO_CONTROL",
              message := "You must acquire control before sending motion commands" }])
    else
      let robot1 := if isMotionKind payload.kind then
          { robot with control := { robot.control with lastCommandAt := some now } }
        else robot
      let s1 := if isMotionKind payload.kind then
          { s with robots := setKey rid robot1 s.robots }
        else s
      match validateCommand robot1 payload with
      | Except.error e => (s1, [Output.toClientError client.sockId e])
      | Except.ok cmd =>
          (s1, if openSock robot1.sockId then [Output.toRobot robot1.sockId cmd] else [])

/-- The operator socket's `message` handler, dispatching on `message.type`;
the session's client record is the one registered under its id (message
handlers only run for connected clients). -/
def uiOnMessage (s : ServerState) (cid : String) (now : Nat) (openSock : Nat → Bool) :
    UiMsg → ServerState × List Output
  | m =>
    match lookupKey cid s.uiClients with
    | none => (s, [])
    | some client =>
      match m with
      | UiMsg.subscribe rid? name? => handleSubscribe s cid client rid? name?
      | UiMsg.unsubscribe rid? => handleUnsubscribe s cid client rid?
      | UiMsg.control rid? p? => handleControl s cid client now rid? p?
      | UiMsg.command rid? p? => handleCommand s cid client now openSock rid? p?
      | UiMsg.ping => (s, [Output.pong client.sockId])
      | UiMsg.other _ => (s, [])

/-- Accepting an operator connection: create the client record (name
`Client-<id>`, empty subscriptions) and send `welcome` with the current
robot snapshots. -/
def uiOnConnect (s : ServerState) (sockId : Nat) (cid : String) (now : Nat) :
    ServerState × List Output :=
  let client : ClientRecord := {
    sockId := sockId, clientId := cid, clientName := "Client-" ++ cid,
    subscribedRobots := [], connectedAt := now }
  ({ s with uiClients := setKey cid client s.uiClients },
   [Output.welcomeClient sockId cid (s.robots.map (fun p => getRobotState s p.1))])

/-- The operator socket's `close` handler: for every robot whose lease this
client owns, reset the lease and broadcast `control_released` with reason
`"owner_disconnected"` to that robot's subscribers; then delete the client
record.  (The source interleaves each reset with its broadcast inside one
`forEach`; the final state and the ordered broadcast list are identical.) -/
def uiOnClose (s : ServerState) (cid : String) : ServerState × List Output :=
  ({ robots := s.robots.map (fun p =>
       if p.2.control.ownerClientId = some cid then
         (p.1, { p.2 with control := ControlLease.empty })
       else p),
     uiClients := delKey cid s.uiClients },
   (s.robots.filter (fun p => decide (p.2.control.ownerClientId = some cid))).map (fun p =>
     Output.broadcastSubscribers (some p.1)
       (EventKind.control_released (some "owner_disconnected") none)))

/-- `now - robot.lastSeen > CONFIG.robotTimeoutMs` (truncated subtraction
agrees with the JS comparison when the clock is monotone). -/
def staleExpired (now : Nat) (r : RobotRecord) : Bool :=
  decide (now - r.lastSeen > robotTimeoutMs)

/-- The 30 s staleness reaper: terminate and delete every timed-out robot
and broadcast `robot_offline` with reason `"timeout"` for each. -/
def reapStale (s : ServerState) (now : Nat) : ServerState × List Output :=
  ({ s with robots := s.robots.filter (fun p => !(staleExpired now p.2)) },
   ((s.robots.filter (fun p => staleExpired now p.2)).map (fun p =>
      [Output.terminate p.2.sockId,
       Output.broadcastAll (some p.1) (EventKind.robot_offline "timeout")])).flatten)

/-- `robot.control.ownerClientId && robot.control.lastCommandAt &&
now - lastCommandAt > CONFIG.controlIdleTimeoutMs` (string and number
truthiness made explicit). -/
def idleExpired (now : Nat) (c : ControlLease) : Bool :=
  match c.ownerClientId, c.lastCommandAt with
  | some o, some t => decide (o ≠ "") && decide (t ≠ 0) && decide (now - t > controlIdleTimeoutMs)
  | _, _ => false

/-- The 10 s idle-lease reaper: unown every idle lease and broadcast
`control_released` with reason `"idle_timeout"` and the previous owner. -/
def reapIdle (s : ServerState) (now : Nat) : ServerState × List Output :=
  ({ s with robots := s.robots.map (fun p =>
       if idleExpired now p.2.control then (p.1, { p.2 with control := ControlLease.empty })
       else p) },
   (s.robots.filter (fun p => idleExpired now p.2.control)).map (fun p =>
      Output.broadcastSubscribers (some p.1)
        (EventKind.control_released (some "idle_timeout") p.2.control.ownerName)))

/-- One externally driven step of the server: a frame or close on either
endpoint, an operator connect, or a reaper firing.  Session-local data
(the robot session's id binding, the operator's id, timestamps, socket
openness) arrive as parameters of the event. -/
inductive Ev where
  | robotMsgEv (sockId : Nat) (sess : Option String) (fresh : String) (now : Nat) (m : RobotMsg)
  | robotCloseEv (sess : Option String)
  | uiConnectEv (sockId : Nat) (cid : String) (now : Nat)
  | uiMsgEv (cid : String) (now : Nat) (openSock : Nat → Bool) (m : UiMsg)
  | uiCloseEv (cid : String)
  | staleReapEv (now : Nat)
  | idleReapEv (now : Nat)

/-- The global transition function of the relay. -/
def step (s : ServerState) : Ev → ServerState × List Output
  | Ev.robotMsgEv sockId sess fresh now m =>
      ((robotOnMessage s sess sockId fresh now m).2.1,
       (robotOnMessage s sess sockId fresh now m).2.2)
  | Ev.robotCloseEv sess => robotOnClose s sess
  | Ev.uiConnectEv sockId cid now => uiOnConnect s sockId cid now
  | Ev.uiMsgEv cid now openSock m => uiOnMessage s cid now openSock m
  | Ev.uiCloseEv cid => uiOnClose s cid
  | Ev.staleReapEv now => reapStale s now
  | Ev.idleReapEv now => reapIdle s now

/-- The lease-liveness invariant: every owned lease points at a client id
registered in the `uiClients` map. -/
def LeaseInv (s : ServerState) : Prop :=
  ∀ p ∈ s.robots, ∀ cid, p.2.control.ownerClientId = some cid →
    ∃ q ∈ s.uiClients, q.1 = cid

/-- Decidable equality of pipeline results, so concrete runs can be checked
by `decide`. -/
instance {ε α : Type} [DecidableEq ε] [DecidableEq α] : DecidableEq (Except ε α) := fun a b =>
  match a, b with
  | Except.error e, Except.error f =>
      if h : e = f then isTrue (by rw [h]) else isFalse (by simp [h])
  | Except.error _, Except.ok _ => isFalse (by simp)
  | Except.ok _, Except.error _ => isFalse (by simp)
  | Except.ok x, Except.ok y =>
      if h : x = y then isTrue (by rw [h]) else isFalse (by simp [h])

/-! ### Concrete fixtures used by counterexamples and witnesses -/

/-- A registered robot with no telemetry and an unowned lease. -/
def bareRobot : RobotRecord := {
  sockId := 5, clientId := "rc", lastSeen := 0, version := "0.1.0",
  capabilities := ["pose"], telemetry := StoredTelemetry.empty,
  control := ControlLease.empty }


/-- A client record for operator `"c1"` subscribed to `"r1"`. -/
def clientC1 : ClientRecord := {
  sockId := 9, clientId := "c1", clientName := "A",
  subscribedRobots := ["r1"], connectedAt := 0 }

/-- `bareRobot` with its lease owned by `"c1"`. -/
def ownedRobot : RobotRecord := { bareRobot with
  control := {
    ownerClientId := some "c1", ownerName := some "A",
    since := some 50, lastCommandAt := some 100 } }

/-- A state with one robot `"r1"` owned by the one client `"c1"`. -/
def ownedState : ServerState := {
  robots := [("r1", ownedRobot)], uiClients := [("c1", clientC1)] }

/-- The frame forwarded for a teleop with `linear_x = 2`, `angular_z = -5`. -/
def clampedTeleopCmd : RobotCommand := {
  command := "teleop", linear_x := some (JsNum.num maxLinearVelocity),
  angular_z := some (JsNum.num (-maxAngularVelocity)) }


/-- Teleop payload with `linear_x = +Infinity` and `angular_z = NaN`. -/
def infNanPayload : CmdPayload := {
  kind := some "teleop", linear_x := some JsNum.posInf, angular_z := some JsNum.nan }

/-- The frame the pipeline builds for `infNanPayload`. -/
def infNanCmd : RobotCommand := {
  command := "teleop", linear_x := some (JsNum.num maxLinearVelocity),
  angular_z := some (JsNum.num 0) }


/-- `ownedRobot` with a one-entry POI catalogue. -/
def poiRobot : RobotRecord := { ownedRobot with
  telemetry := StoredTelemetry.fromPayload {
    pois := some [{ id := some "dock", name := some "Dock" }] } }

/-- `ownedState` with the POI catalogue present on `"r1"`. -/
def poiState : ServerState := {
  robots := [("r1", poiRobot)], uiClients := [("c1", clientC1)] }

/-- State after a robot registers `"r1"` over socket 1. -/
def reconState1 : ServerState :=
  (robotOnMessage initState none 1 "cA" 100 (RobotMsg.hello { robotId := some "r1" })).2.1

/-- State after the same robot id re-registers over socket 2. -/
def reconState2 : ServerState :=
  (robotOnMessage reconState1 (some "r1") 2 "cB" 200 (RobotMsg.hello { robotId := some "r1" })).2.1

/-- The record installed when `"r1"` re-registers over socket 2 in `ownedState`. -/
def reregRecord : RobotRecord := {
  sockId := 2, clientId := "cB", lastSeen := 300, version := "0.0.0",
  capabilities := ["pose", "battery", "mode"], telemetry := StoredTelemetry.empty,
  control := ControlLease.empty }


/-- A client with no subscriptions. -/
def emptyClient : ClientRecord := {
  sockId := 11, clientId := "c2", clientName := "Client-c2",
  subscribedRobots := [], connectedAt := 0 }

/-- A state holding only the unsubscribed client `"c2"`. -/
def emptySubState : ServerState := { robots := [], uiClients := [("c2", emptyClient)] }

/-- The `UNKNOWN_POI` frame answered for id `"nowhere"` against the
one-entry catalogue. -/
def unknownPoiErr : ErrFrame := {
  code := "UNKNOWN_POI", message := "POI \"nowhere\" not found",
  availablePois := some [some "dock"] }

/-! ### Lemmas and theorems -/

/-- The linear bound constant is the spec value 0.5. -/
theorem maxLinearVelocity_eq : maxLinearVelocity = 1/2 := by
  norm_num [maxLinearVelocity, mkRat]

/-- The angular bound constant is the spec value 1.5. -/
theorem maxAngularVelocity_eq : maxAngularVelocity = 3/2 := by
  norm_num [maxAngularVelocity, mkRat]

theorem lookupKey_mem {β : Type} {k : String} {v : β} {l : List (String × β)}
    (h : lookupKey k l = some v) : (k, v) ∈ l := by
  induction l with
  | nil => simp [lookupKey] at h
  | cons p rest ih =>
    obtain ⟨k', v'⟩ := p
    by_cases hk : k = k'
    · subst hk
      simp [lookupKey] at h
      simp [h]
    · simp [lookupKey, hk] at h
      exact List.mem_cons_of_mem _ (ih h)

theorem mem_setKey {β : Type} {p : String × β} {k : String} {v : β} {l : List (String × β)}
    (h : p ∈ setKey k v l) : p = (k, v) ∨ p ∈ l := by
  induction l with
  | nil => simpa [setKey] using h
  | cons q rest ih =>
    obtain ⟨k', v'⟩ := q
    by_cases hk : k = k'
    · subst hk
      rcases List.mem_cons.mp (by simpa [setKey] using h) with h' | h'
      · exact Or.inl h'
      · exact Or.inr (List.mem_cons_of_mem _ h')
    · rcases List.mem_cons.mp (by simpa [setKey, hk] using h) with h' | h'
      · exact Or.inr (by simp [h'])
      · rcases ih h' with h'' | h''
        · exact Or.inl h''
        · exact Or.inr (List.mem_cons_of_mem _ h'')

theorem mem_setKey_self {β : Type} (k : String) (v : β) (l : List (String × β)) :
    (k, v) ∈ setKey k v l := by
  induction l with
  | nil => simp [setKey]
  | cons q rest ih =>
    obtain ⟨k', v'⟩ := q
    by_cases hk : k = k'
    · subst hk; simp [setKey]
    · simp only [setKey, if_neg hk]
      exact List.mem_cons_of_mem _ ih

theorem mem_setKey_of_ne {β : Type} {p : String × β} {k : String} {v : β} {l : List (String × β)}
    (hp : p ∈ l) (hne : p.1 ≠ k) : p ∈ setKey k v l := by
  induction l with
  | nil => simp at hp
  | cons q rest ih =>
    obtain ⟨k', v'⟩ := q
    by_cases hk : k = k'
    · subst hk
      simp only [setKey, if_pos rfl]
      rcases List.mem_cons.mp hp with h | h
      · exact absurd (by rw [h]) hne
      · exact List.mem_cons_of_mem _ h
    · simp only [setKey, if_neg hk]
      rcases List.mem_cons.mp hp with h | h
      · exact h ▸ List.mem_cons_self _ _
      · exact List.mem_cons_of_mem _ (ih h)

theorem lookupKey_setKey {β : Type} (k' k : String) (v : β) (l : List (String × β)) :
    lookupKey k' (setKey k v l) = if k' = k then some v else lookupKey k' l := by
  induction l with
  | nil => by_cases h : k' = k <;> simp [setKey, lookupKey, h]
  | cons q rest ih =>
    obtain ⟨k0, v0⟩ := q
    by_cases hk : k = k0
    · subst hk
      by_cases h' : k' = k <;> simp [setKey, lookupKey, h']
    · by_cases h' : k' = k0
      · subst h'
        simp [setKey, lookupKey, hk, Ne.symm hk]
      · simp [setKey, lookupKey, hk, h', ih]

theorem mem_delKey {β : Type} {p : String × β} {k : String} {l : List (String × β)} :
    p ∈ delKey k l ↔ p ∈ l ∧ p.1 ≠ k := by
  simp [delKey, List.mem_filter]

theorem lookupKey_delKey_self {β : Type} (k : String) (l : List (String × β)) :
    lookupKey k (delKey k l) = none := by
  induction l with
  | nil => simp [delKey, lookupKey]
  | cons q rest ih =>
    obtain ⟨k0, v0⟩ := q
    by_cases hk : k0 = k
    · subst hk
      simpa [delKey, List.filter] using ih
    · simpa [delKey, List.filter, Ne.symm hk, lookupKey, hk] using ih

theorem exists_key_setKey {β : Type} {l : List (String × β)} {c : String} (k : String) (v : β)
    (h : ∃ q ∈ l, q.1 = c) : ∃ q ∈ setKey k v l, q.1 = c := by
  by_cases hc : c = k
  · exact ⟨(k, v), mem_setKey_self k v l, hc.symm⟩
  · obtain ⟨q, hq, hqc⟩ := h
    exact ⟨q, mem_setKey_of_ne hq (by rw [hqc]; exact hc), hqc⟩

theorem clamp_jsOrZero_num (v : JsNum) (b : ℚ) (hb : 0 < b) :
    ∃ q : ℚ, clamp (jsOrZero v) (JsNum.num (-b)) (JsNum.num b) = JsNum.num q ∧ |q| ≤ b := by
  have hnb : -b ≤ b := by linarith
  cases v with
  | nan =>
      refine ⟨max (-b) (min b 0), by simp [clamp, jsOrZero, jsMin, jsMax], ?_⟩
      rw [abs_le]
      exact ⟨le_max_left _ _, max_le hnb (min_le_left _ _)⟩
  | posInf =>
      refine ⟨max (-b) b, by simp [clamp, jsOrZero, jsMin, jsMax], ?_⟩
      rw [max_eq_right hnb, abs_of_pos hb]
  | negInf =>
      refine ⟨-b, by simp [clamp, jsOrZero, jsMin, jsMax], ?_⟩
      rw [abs_neg, abs_of_pos hb]
  | num q =>
      refine ⟨max (-b) (min b q), by simp [clamp, jsOrZero, jsMin, jsMax], ?_⟩
      rw [abs_le]
      exact ⟨le_max_left _ _, max_le hnb (min_le_left _ _)⟩

set_option maxHeartbeats 1000000 in
theorem validateCommand_teleop {robot : RobotRecord} {p : CmdPayload} {cmd : RobotCommand}
    (h : validateCommand robot p = Except.ok cmd) (hc : cmd.command = "teleop") :
    cmd = { command := "teleop",
            linear_x := some (clamp (jsOrZero (toNumber p.linear_x))
              (JsNum.num (-maxLinearVelocity)) (JsNum.num maxLinearVelocity)),
            angular_z := some (clamp (jsOrZero (toNumber p.angular_z))
              (JsNum.num (-maxAngularVelocity)) (JsNum.num maxAngularVelocity)) } := by
  unfold validateCommand at h
  repeat' split at h
  case h_6.h_2.isFalse =>
    simp only [] at h
    split at h
    · exact absurd h (by simp)
    · injection h with h
      subst h
      simp_all
  all_goals (try injection h with h)
  all_goals (try subst h)
  all_goals simp_all

set_option maxHeartbeats 1000000 in
theorem handleControl_no_forward (s : ServerState) (cid : String) (client : ClientRecord)
    (now : Nat) (rid? : Option String) (p? : Option CtrlPayload) (sk : Nat) (cmd : RobotCommand) :
    Output.toRobot sk cmd ∉ (handleControl s cid client now rid? p?).2 := by
  intro hmem
  rw [handleControl] at hmem
  simp only [] at hmem
  repeat' split at hmem
  all_goals simp_all

set_option maxHeartbeats 1000000 in
theorem handleCommand_forward (s : ServerState) (cid : String) (client : ClientRecord)
    (now : Nat) (openSock : Nat → Bool) (rid? : Option String) (p? : Option CmdPayload)
    (sk : Nat) (cmd : RobotCommand)
    (hmem : Output.toRobot sk cmd ∈ (handleCommand s cid client now openSock rid? p?).2) :
    ∃ robot1 : RobotRecord, validateCommand robot1 (p?.getD {}) = Except.ok cmd := by
  rw [handleCommand] at hmem
  simp only [] at hmem
  repeat' split at hmem
  all_goals simp_all
  all_goals (obtain ⟨h1, h2⟩ := hmem; subst h2; exact ⟨_, by assumption⟩)

/-- Claim C2: every `teleop` command frame that the pipeline forwards to a
robot socket satisfies `|linear_x| <= 0.5` and `|angular_z| <= 1.5`, whatever
the operator-supplied values were (any number, missing, NaN, or infinite). -/
theorem teleop_forward_clamped (s : ServerState) (cid : String) (now : Nat)
    (openSock : Nat → Bool) (m : UiMsg) (sk : Nat) (cmd : RobotCommand)
    (hmem : Output.toRobot sk cmd ∈ (uiOnMessage s cid now openSock m).2)
    (hcmd : cmd.command = "teleop") :
    ∃ qx qz : ℚ,
      cmd.linear_x = some (JsNum.num qx) ∧ |qx| ≤ maxLinearVelocity ∧
      cmd.angular_z = some (JsNum.num qz) ∧ |qz| ≤ maxAngularVelocity := by
  rw [uiOnMessage] at hmem
  have hvc : ∃ robot1 : RobotRecord, ∃ p : CmdPayload,
      validateCommand robot1 p = Except.ok cmd := by
    rcases hl : lookupKey cid s.uiClients with _ | client <;> rw [hl] at hmem
    · simp at hmem
    · cases m with
      | subscribe rid? name? => simp [handleSubscribe] at hmem
      | unsubscribe rid? => simp [handleUnsubscribe] at hmem
      | control rid? p? => exact absurd hmem (handleControl_no_forward s cid client now rid? p? sk cmd)
      | command rid? p? =>
          obtain ⟨r1, hr1⟩ := handleCommand_forward s cid client now openSock rid? p? sk cmd hmem
          exact ⟨r1, _, hr1⟩
      | ping => simp at hmem
      | other t => simp at hmem
  obtain ⟨r1, p, hvc⟩ := hvc
  have hshape := validateCommand_teleop hvc hcmd
  subst hshape
  obtain ⟨qx, hqx, hbx⟩ := clamp_jsOrZero_num (toNumber p.linear_x) maxLinearVelocity (by norm_num [maxLinearVelocity, mkRat])
  obtain ⟨qz, hqz, hbz⟩ := clamp_jsOrZero_num (toNumber p.angular_z) maxAngularVelocity (by norm_num [maxAngularVelocity, mkRat])
  exact ⟨qx, qz, by simp [hqx], hbx, by simp [hqz], hbz⟩

/-- Witness for C2: operator `"c1"`, owning `"r1"`, sends teleop with
`linear_x = 2`, `angular_z = -5`; the forwarded frame is within bounds. -/
theorem teleop_forward_clamped_witness :
    ∃ qx qz : ℚ,
      clampedTeleopCmd.linear_x = some (JsNum.num qx) ∧ |qx| ≤ maxLinearVelocity ∧
      clampedTeleopCmd.angular_z = some (JsNum.num qz) ∧ |qz| ≤ maxAngularVelocity :=
  teleop_forward_clamped ownedState "c1" 200 (fun _ => true)
    (UiMsg.command (some "r1") (some {
      kind := some "teleop",
      linear_x := some (JsNum.num 2), angular_z := some (JsNum.num (-5)) }))
    5 clampedTeleopCmd (by decide) rfl

/-- Claim C3 counterexample: a teleop with `linear_x = +Infinity` from the
lease owner is forwarded with `linear_x = 0.5` (the positive bound), not
with `linear_x = 0` as the claim states. -/
theorem teleop_posInf_forwarded_at_bound :
    (uiOnMessage ownedState "c1" 200 (fun _ => true)
      (UiMsg.command (some "r1") (some {
        kind := some "teleop",
        linear_x := some JsNum.posInf, angular_z := some (JsNum.num 0) }))).2 =
      [Output.toRobot 5 {
        command := "teleop",
        linear_x := some (JsNum.num maxLinearVelocity),
        angular_z := some (JsNum.num 0) }] ∧
    JsNum.num maxLinearVelocity ≠ JsNum.num 0 := by decide

/-- Claim C3 (amended): in the frame built for a forwarded teleop command, a
NaN or missing `linear_x` is zeroed before clamping, while `+Infinity` and
`-Infinity` are not zeroed but clamped to the bound (`0.5` / `-0.5`), and
likewise for `angular_z` with bound `1.5`. -/
theorem teleop_nonfinite_clamp {robot : RobotRecord} {p : CmdPayload} {cmd : RobotCommand}
    (h : validateCommand robot p = Except.ok cmd) (hc : cmd.command = "teleop") :
    ((p.linear_x = none ∨ p.linear_x = some JsNum.nan) → cmd.linear_x = some (JsNum.num 0)) ∧
    (p.linear_x = some JsNum.posInf → cmd.linear_x = some (JsNum.num maxLinearVelocity)) ∧
    (p.linear_x = some JsNum.negInf → cmd.linear_x = some (JsNum.num (-maxLinearVelocity))) ∧
    ((p.angular_z = none ∨ p.angular_z = some JsNum.nan) → cmd.angular_z = some (JsNum.num 0)) ∧
    (p.angular_z = some JsNum.posInf → cmd.angular_z = some (JsNum.num maxAngularVelocity)) ∧
    (p.angular_z = some JsNum.negInf → cmd.angular_z = some (JsNum.num (-maxAngularVelocity))) := by
  have hL : (0:ℚ) < maxLinearVelocity := by norm_num [maxLinearVelocity, mkRat]
  have hA : (0:ℚ) < maxAngularVelocity := by norm_num [maxAngularVelocity, mkRat]
  have hshape := validateCommand_teleop h hc
  subst hshape
  refine ⟨?_, ?_, ?_, ?_, ?_, ?_⟩ <;> intro hx
  · rcases hx with hx | hx <;> rw [hx] <;>
      simp [toNumber, jsOrZero, clamp, jsMin, jsMax, min_eq_right hL.le,
        max_eq_right (neg_nonpos.mpr hL.le)]
  · rw [hx]
    simp [toNumber, jsOrZero, clamp, jsMin, jsMax, max_eq_right (neg_le_self hL.le)]
  · rw [hx]
    simp [toNumber, jsOrZero, clamp, jsMin, jsMax]
  · rcases hx with hx | hx <;> rw [hx] <;>
      simp [toNumber, jsOrZero, clamp, jsMin, jsMax, min_eq_right hA.le,
        max_eq_right (neg_nonpos.mpr hA.le)]
  · rw [hx]
    simp [toNumber, jsOrZero, clamp, jsMin, jsMax, max_eq_right (neg_le_self hA.le)]
  · rw [hx]
    simp [toNumber, jsOrZero, clamp, jsMin, jsMax]

/-- Witness for the amended C3 at `linear_x = +Infinity`, `angular_z = NaN`. -/
theorem teleop_nonfinite_clamp_witness :
    ((infNanPayload.linear_x = none ∨ infNanPayload.linear_x = some JsNum.nan) →
        infNanCmd.linear_x = some (JsNum.num 0)) ∧
    (infNanPayload.linear_x = some JsNum.posInf →
        infNanCmd.linear_x = some (JsNum.num maxLinearVelocity)) ∧
    (infNanPayload.linear_x = some JsNum.negInf →
        infNanCmd.linear_x = some (JsNum.num (-maxLinearVelocity))) ∧
    ((infNanPayload.angular_z = none ∨ infNanPayload.angular_z = some JsNum.nan) →
        infNanCmd.angular_z = some (JsNum.num 0)) ∧
    (infNanPayload.angular_z = some JsNum.posInf →
        infNanCmd.angular_z = some (JsNum.num maxAngularVelocity)) ∧
    (infNanPayload.angular_z = some JsNum.negInf →
        infNanCmd.angular_z = some (JsNum.num (-maxAngularVelocity))) :=
  @teleop_nonfinite_clamp bareRobot infNanPayload infNanCmd (by decide) (by decide)

/-- Claim C9: a `hello` (or `register`) frame for an already-registered robot
id replaces the entire record: the previous socket is terminated, the new
record starts with empty telemetry and an unowned lease, and only `welcome`
plus a `robot_online` broadcast are emitted — any held lease is discarded
silently, with no `control_released` broadcast. -/
theorem hello_replaces_record (s : ServerState) (sess : Option String) (sockId : Nat)
    (fresh : String) (now : Nat) (m : HelloMsg) (rid : String) (old : RobotRecord)
    (hrid : jsOrD (jsOr m.robotId m.robot_id) "fordward" = rid)
    (hold : lookupKey rid s.robots = some old) :
    (robotOnMessage s sess sockId fresh now (RobotMsg.hello m) =
       (some rid,
        { s with robots := setKey rid {
            sockId := sockId, clientId := fresh, lastSeen := now,
            version := jsOrD m.version "0.0.0",
            capabilities := m.capabilities.getD ["pose", "battery", "mode"],
            telemetry := StoredTelemetry.empty,
            control := ControlLease.empty } s.robots },
        [Output.terminate old.sockId, Output.welcomeRobot sockId rid,
         Output.broadcastAll (some rid) (EventKind.robot_online m.version)]) ∧
     robotOnMessage s sess sockId fresh now (RobotMsg.register m) =
       robotOnMessage s sess sockId fresh now (RobotMsg.hello m)) ∧
    (∀ r reason po,
       Output.broadcastSubscribers r (EventKind.control_released reason po) ∉
         (robotOnMessage s sess sockId fresh now (RobotMsg.hello m)).2.2) := by
  subst hrid
  refine ⟨⟨?_, rfl⟩, ?_⟩
  · simp [robotOnMessage, handleHello, hold]
  · intro r reason po hmem
    simp [robotOnMessage, handleHello, hold] at hmem

/-- Claim C10: a telemetry frame whose resolved robot id is absent from the
registry is ignored: no record is created, no existing record changes, and
nothing is broadcast (the whole state is returned untouched, with an empty
output list). -/
theorem telemetry_unknown_ignored (s : ServerState) (sess : Option String) (sockId : Nat)
    (fresh : String) (now : Nat) (m : TelemetryMsg) (rid : String)
    (hrid : jsOr (jsOr m.robotId m.robot_id) sess = some rid) (hne : rid ≠ "")
    (habs : lookupKey rid s.robots = none) :
    robotOnMessage s sess sockId fresh now (RobotMsg.telemetry m) = (some rid, s, []) := by
  simp [robotOnMessage, handleTelemetry, hrid, hne, habs]

/-- Witness for C9: re-registration of `"r1"` (lease owned by `"c1"`)
terminates socket 5, installs a fresh record, and broadcasts only
`robot_online`. -/
theorem hello_replaces_record_witness :
    (robotOnMessage ownedState none 2 "cB" 300 (RobotMsg.hello { robotId := some "r1" }) =
       (some "r1",
        { ownedState with robots := setKey "r1" reregRecord ownedState.robots },
        [Output.terminate 5, Output.welcomeRobot 2 "r1",
         Output.broadcastAll (some "r1") (EventKind.robot_online none)]) ∧
     robotOnMessage ownedState none 2 "cB" 300 (RobotMsg.register { robotId := some "r1" }) =
       robotOnMessage ownedState none 2 "cB" 300 (RobotMsg.hello { robotId := some "r1" })) ∧
    (∀ r reason po,
       Output.broadcastSubscribers r (EventKind.control_released reason po) ∉
         (robotOnMessage ownedState none 2 "cB" 300
           (RobotMsg.hello { robotId := some "r1" })).2.2) :=
  hello_replaces_record ownedState none 2 "cB" 300 { robotId := some "r1" } "r1" ownedRobot
    (by decide) (by decide)

/-- Witness for C10: a telemetry frame for unknown `"ghost"` leaves the state
untouched and emits nothing. -/
theorem telemetry_unknown_ignored_witness :
    robotOnMessage ownedState none 7 "cC" 400 (RobotMsg.telemetry { robotId := some "ghost" }) =
      (some "ghost", ownedState, []) :=
  telemetry_unknown_ignored ownedState none 7 "cC" 400 { robotId := some "ghost" } "ghost"
    (by decide) (by decide) (by decide)

/-- Claim C1 evaluated at its failing input: robot `"r1"` registers over
socket 1, re-registers over socket 2 (the stored record then belongs to
socket 2), and then socket 1's close handler fires.  The handler deletes the
re-registered record anyway and broadcasts `robot_offline` with reason
`"disconnected"` — there is no compare-and-remove. -/
theorem robot_close_evicts_reconnected :
    ((lookupKey "r1" reconState2.robots).map (fun r => r.sockId) = some 2) ∧
    robotOnClose reconState2 (some "r1") =
      ({ reconState2 with robots := [] },
       [Output.broadcastAll (some "r1") (EventKind.robot_offline "disconnected")]) ∧
    lookupKey "r1" (robotOnClose reconState2 (some "r1")).1.robots = none := by decide

/-- Claim C8: a `control` request from the current lease owner changes the
lease only by refreshing `lastCommandAt`, sends `control_confirmed` to the
requester alone, and broadcasts nothing (the output list is exactly that one
single-socket event frame). -/
theorem owner_request_confirmed (s : ServerState) (cid : String) (client : ClientRecord)
    (now : Nat) (openSock : Nat → Bool) (rid? : Option String) (p? : Option CtrlPayload)
    (rid : String) (robot : RobotRecord)
    (hcl : lookupKey cid s.uiClients = some client)
    (hrid : jsOrD rid? "fordward" = rid)
    (hrob : lookupKey rid s.robots = some robot)
    (hact : (p?.bind fun p => p.action) = some "request")
    (hown : robot.control.ownerClientId = some cid)
    (hne : cid ≠ "") :
    uiOnMessage s cid now openSock (UiMsg.control rid? p?) =
      ({ s with robots := setKey rid { robot with
           control := { robot.control with lastCommandAt := some now } } s.robots },
       [Output.toClientEvent client.sockId rid EventKind.control_confirmed]) := by
  subst hrid
  simp [uiOnMessage, hcl, handleControl, hrob, hact, strTruthy, hown, hne]

/-- Witness for C8: owner `"c1"` re-requests control of `"r1"`; only
`lastCommandAt` moves to the request time and only `control_confirmed` is
sent, to socket 9. -/
theorem owner_request_confirmed_witness :
    uiOnMessage ownedState "c1" 500 (fun _ => true)
      (UiMsg.control (some "r1") (some { action := some "request" })) =
      ({ ownedState with robots := setKey "r1" { ownedRobot with
           control := { ownedRobot.control with lastCommandAt := some 500 } } ownedState.robots },
       [Output.toClientEvent 9 "r1" EventKind.control_confirmed]) :=
  owner_request_confirmed ownedState "c1" clientC1 500 (fun _ => true) (some "r1")
    (some { action := some "request" }) "r1" ownedRobot
    (by decide) (by decide) (by decide) (by decide) (by decide) (by decide)

set_option maxHeartbeats 1000000 in
/-- Claim C7: for a `goto_poi` from the lease owner with a poiId present —
if the robot's POI catalogue is non-empty and the id matches no entry's `id`
or `name`, the operator gets `UNKNOWN_POI` carrying the catalogue
(`p.id || p.name` per entry) and nothing is forwarded; if the catalogue is
empty, the command is forwarded as `go_to_poi` with no check. -/
theorem goto_poi_check (s : ServerState) (cid : String) (client : ClientRecord)
    (now : Nat) (openSock : Nat → Bool) (rid? : Option String) (payload : CmdPayload)
    (rid : String) (robot : RobotRecord) (pid : String)
    (hcl : lookupKey cid s.uiClients = some client)
    (hrid : jsOrD rid? "fordward" = rid)
    (hrob : lookupKey rid s.robots = some robot)
    (hown : robot.control.ownerClientId = some cid)
    (hkind : payload.kind = some "goto_poi")
    (hpid : jsOr payload.poiId payload.poi_id = some pid) (hpne : pid ≠ "") :
    (robot.telemetry.poisList ≠ [] →
      robot.telemetry.poisList.any
        (fun p => decide (p.id = some pid) || decide (p.name = some pid)) = false →
      uiOnMessage s cid now openSock (UiMsg.command rid? (some payload)) =
        ({ s with robots := setKey rid { robot with
             control := { robot.control with lastCommandAt := some now } } s.robots },
         [Output.toClientError client.sockId {
            code := "UNKNOWN_POI",
            message := "POI \"" ++ pid ++ "\" not found",
            availablePois := some (robot.telemetry.poisList.map (fun p => jsOr p.id p.name)) }])) ∧
    (robot.telemetry.poisList = [] → openSock robot.sockId = true →
      uiOnMessage s cid now openSock (UiMsg.command rid? (some payload)) =
        ({ s with robots := setKey rid { robot with
             control := { robot.control with lastCommandAt := some now } } s.robots },
         [Output.toRobot robot.sockId { command := "go_to_poi", poi_id := some pid }])) := by
  subst hrid
  have hm2 : isMotionKind (some "goto_poi") = true := by decide
  constructor
  · intro h1 h2
    simp only [List.any_eq_false, Bool.or_eq_true, decide_eq_true_eq, not_or] at h2
    have hcond : 0 < robot.telemetry.poisList.length ∧
        ∀ x ∈ robot.telemetry.poisList, ¬x.id = some pid ∧ ¬x.name = some pid :=
      ⟨List.length_pos.mpr h1, h2⟩
    simp [uiOnMessage, hcl, handleCommand, hrob, hkind, hm2, hown, validateCommand,
      hpid, hpne, hcond, eq_true h2]
  · intro h1 h2
    simp [uiOnMessage, hcl, handleCommand, hrob, hkind, hm2, hown, validateCommand,
      hpid, hpne, h1, h2]

/-- Witness for C7 at robot `"r1"` with catalogue `[dock]` and unknown id
`"nowhere"`: the UNKNOWN_POI case applies, the empty-catalogue case is
vacuous. -/
theorem goto_poi_check_witness :
    (poiRobot.telemetry.poisList ≠ [] →
      poiRobot.telemetry.poisList.any
        (fun p => decide (p.id = some "nowhere") || decide (p.name = some "nowhere")) = false →
      uiOnMessage poiState "c1" 777 (fun _ => true)
        (UiMsg.command (some "r1") (some { kind := some "goto_poi", poiId := some "nowhere" })) =
        ({ poiState with robots := setKey "r1" { poiRobot with
             control := { poiRobot.control with lastCommandAt := some 777 } } poiState.robots },
         [Output.toClientError 9 {
            code := "UNKNOWN_POI",
            message := "POI \"nowhere\" not found",
            availablePois := some (poiRobot.telemetry.poisList.map (fun p => jsOr p.id p.name)) }])) ∧
    (poiRobot.telemetry.poisList = [] → true = true →
      uiOnMessage poiState "c1" 777 (fun _ => true)
        (UiMsg.command (some "r1") (some { kind := some "goto_poi", poiId := some "nowhere" })) =
        ({ poiState with robots := setKey "r1" { poiRobot with
             control := { poiRobot.control with lastCommandAt := some 777 } } poiState.robots },
         [Output.toRobot poiRobot.sockId { command := "go_to_poi", poi_id := some "nowhere" }])) :=
  goto_poi_check poiState "c1" clientC1 777 (fun _ => true) (some "r1")
    { kind := some "goto_poi", poiId := some "nowhere" } "r1" poiRobot "nowhere"
    (by decide) (by decide) (by decide) (by decide) (by decide) (by decide) (by decide)

/-- Claim C5 counterexample: the lease owner sends `goto_poi` with an unknown
POI id; the operator gets `UNKNOWN_POI`, but the robot's
`lease.lastCommandAt` has moved from 100 to the frame time 777 — the state
is not unchanged. -/
theorem goto_poi_error_changes_state :
    ((uiOnMessage poiState "c1" 777 (fun _ => true)
        (UiMsg.command (some "r1") (some { kind := some "goto_poi", poiId := some "nowhere" }))).2 =
      [Output.toClientError 9 {
         code := "UNKNOWN_POI", message := "POI \"nowhere\" not found",
         availablePois := some [some "dock"] }]) ∧
    ((lookupKey "r1" (uiOnMessage poiState "c1" 777 (fun _ => true)
        (UiMsg.command (some "r1") (some { kind := some "goto_poi", poiId := some "nowhere" }))).1.robots).map
      (fun r => r.control.lastCommandAt) = some (some 777)) ∧
    poiRobot.control.lastCommandAt = some 100 := by decide

set_option maxHeartbeats 1000000 in
theorem validateCommand_error_codes {robot : RobotRecord} {p : CmdPayload} {e : ErrFrame}
    (h : validateCommand robot p = Except.error e) :
    e.code = "INVALID_MODE" ∨ e.code = "MISSING_PARAM" ∨
    e.code = "UNKNOWN_POI" ∨ e.code = "UNKNOWN_COMMAND" := by
  unfold validateCommand at h
  repeat' split at h
  all_goals (try (simp only [] at h; split at h))
  all_goals (try injection h with h)
  all_goals (try subst h)
  all_goals simp_all

/-- Claim C5 (amended): when the command pipeline answers a validation error
(`INVALID_MODE`, `MISSING_PARAM`, `UNKNOWN_POI`, `UNKNOWN_COMMAND`), the
error frame is the only output and goes to the originating operator's
socket; the state is unchanged for non-motion kinds, but for a motion kind
sent by the lease owner the target robot's `lease.lastCommandAt` has already
been refreshed to the frame time before validation ran. -/
theorem validation_error_reply_only (s : ServerState) (cid : String) (client : ClientRecord)
    (now : Nat) (openSock : Nat → Bool) (rid? : Option String) (payload : CmdPayload)
    (rid : String) (robot : RobotRecord) (e : ErrFrame)
    (hcl : lookupKey cid s.uiClients = some client)
    (hrid : jsOrD rid? "fordward" = rid)
    (hrob : lookupKey rid s.robots = some robot)
    (hown : isMotionKind payload.kind = true → robot.control.ownerClientId = some cid)
    (he : validateCommand
        (if isMotionKind payload.kind then
          { robot with control := { robot.control with lastCommandAt := some now } }
        else robot) payload = Except.error e) :
    uiOnMessage s cid now openSock (UiMsg.command rid? (some payload)) =
      ((if isMotionKind payload.kind then
          { s with robots := setKey rid { robot with
              control := { robot.control with lastCommandAt := some now } } s.robots }
        else s),
       [Output.toClientError client.sockId e]) ∧
    (e.code = "INVALID_MODE" ∨ e.code = "MISSING_PARAM" ∨
     e.code = "UNKNOWN_POI" ∨ e.code = "UNKNOWN_COMMAND") ∧
    (isMotionKind payload.kind = false →
      (uiOnMessage s cid now openSock (UiMsg.command rid? (some payload))).1 = s) := by
  subst hrid
  have hmain : uiOnMessage s cid now openSock (UiMsg.command rid? (some payload)) =
      ((if isMotionKind payload.kind then
          { s with robots := setKey (jsOrD rid? "fordward") { robot with
              control := { robot.control with lastCommandAt := some now } } s.robots }
        else s),
       [Output.toClientError client.sockId e]) := by
    cases hM : isMotionKind payload.kind with
    | false =>
        rw [hM] at he
        simp only [if_neg Bool.false_ne_true] at he ⊢
        simp [uiOnMessage, hcl, handleCommand, hrob, hM, he]
    | true =>
        have ho := hown hM
        rw [hM] at he
        simp only [eq_self_iff_true, if_true] at he
        rw [ho] at he
        simp [uiOnMessage, hcl, handleCommand, hrob, hM, ho, he]
  refine ⟨hmain, validateCommand_error_codes he, ?_⟩
  intro hM
  rw [hmain, hM]
  simp

/-- Witness for the amended C5: the owner's `goto_poi` with unknown id gets
exactly one `UNKNOWN_POI` frame on its own socket, and the state change is
the `lastCommandAt` refresh alone. -/
theorem validation_error_reply_only_witness :
    uiOnMessage poiState "c1" 777 (fun _ => true)
      (UiMsg.command (some "r1") (some { kind := some "goto_poi", poiId := some "nowhere" })) =
      ({ poiState with robots := setKey "r1" { poiRobot with
           control := { poiRobot.control with lastCommandAt := some 777 } } poiState.robots },
       [Output.toClientError 9 unknownPoiErr]) ∧
    (unknownPoiErr.code = "INVALID_MODE" ∨ unknownPoiErr.code = "MISSING_PARAM" ∨
     unknownPoiErr.code = "UNKNOWN_POI" ∨ unknownPoiErr.code = "UNKNOWN_COMMAND") ∧
    (isMotionKind (some "goto_poi") = false →
      (uiOnMessage poiState "c1" 777 (fun _ => true)
        (UiMsg.command (some "r1") (some { kind := some "goto_poi", poiId := some "nowhere" }))).1 =
        poiState) :=
  validation_error_reply_only poiState "c1" clientC1 777 (fun _ => true) (some "r1")
    { kind := some "goto_poi", poiId := some "nowhere" } "r1" poiRobot unknownPoiErr
    (by decide) (by decide) (by decide) (fun _ => by decide) (by decide)

/-- Claim C6 counterexample: with an empty subscription set, a `subscribe`
omitting `robotId` (adding the default `"fordward"`) followed by an
`unsubscribe` omitting `robotId` (which deletes nothing — the unsubscribe
handler applies no default) leaves `["fordward"]`, not the original `[]`. -/
theorem subscribe_unsubscribe_default_changes_set :
    ((lookupKey "c2" ((uiOnMessage
        ((uiOnMessage emptySubState "c2" 10 (fun _ => true) (UiMsg.subscribe none none)).1)
        "c2" 11 (fun _ => true) (UiMsg.unsubscribe none)).1).uiClients).map
      (fun c => c.subscribedRobots) = some ["fordward"]) ∧
    emptyClient.subscribedRobots = [] := by decide

theorem setAdd_of_mem {x : String} {l : List String} (h : x ∈ l) : setAdd x l = l := by
  simp [setAdd, h]

theorem setAdd_of_not_mem {x : String} {l : List String} (h : x ∉ l) :
    setAdd x l = l ++ [x] := by
  simp [setAdd, h]

theorem setDel_append_self {x : String} {l : List String} (h : x ∉ l) :
    setDel x (l ++ [x]) = l := by
  induction l with
  | nil => simp [setDel]
  | cons y rest ih =>
    simp only [List.mem_cons, not_or] at h
    simp only [List.cons_append, setDel, if_neg (Ne.symm h.1)]
    exact congrArg (y :: ·) (ih h.2)

/-- Claim C6 (amended): after a `subscribe` (resolving to robot id `rid`,
the default `"fordward"` when the field is absent) followed by an
`unsubscribe`: if the unsubscribe names `rid` explicitly and the client was
not already subscribed to it, the subscription set returns to its previous
value; an unsubscribe omitting `robotId` removes nothing, so the set keeps
the added `rid`; and if the client was already subscribed to `rid`, the pair
removes that entry. -/
theorem subscribe_unsubscribe_roundtrip (s : ServerState) (cid : String) (client : ClientRecord)
    (now1 now2 : Nat) (o1 o2 : Nat → Bool) (subId name? : Option String) (rid : String)
    (hcl : lookupKey cid s.uiClients = some client)
    (hrid : jsOrD subId "fordward" = rid) :
    (rid ∉ client.subscribedRobots →
      (lookupKey cid ((uiOnMessage ((uiOnMessage s cid now1 o1 (UiMsg.subscribe subId name?)).1)
          cid now2 o2 (UiMsg.unsubscribe (some rid))).1).uiClients).map
        (fun c => c.subscribedRobots) = some client.subscribedRobots) ∧
    ((lookupKey cid ((uiOnMessage ((uiOnMessage s cid now1 o1 (UiMsg.subscribe subId name?)).1)
          cid now2 o2 (UiMsg.unsubscribe none)).1).uiClients).map
        (fun c => c.subscribedRobots) = some (setAdd rid client.subscribedRobots)) ∧
    (rid ∈ client.subscribedRobots →
      (lookupKey cid ((uiOnMessage ((uiOnMessage s cid now1 o1 (UiMsg.subscribe subId name?)).1)
          cid now2 o2 (UiMsg.unsubscribe (some rid))).1).uiClients).map
        (fun c => c.subscribedRobots) = some (setDel rid client.subscribedRobots)) := by
  subst hrid
  have hpairS : ∀ r : String,
      (lookupKey cid ((uiOnMessage ((uiOnMessage s cid now1 o1 (UiMsg.subscribe subId name?)).1)
          cid now2 o2 (UiMsg.unsubscribe (some r))).1).uiClients).map
        (fun c => c.subscribedRobots) =
      some (setDel r (setAdd (jsOrD subId "fordward") client.subscribedRobots)) := by
    intro r
    simp only [uiOnMessage, hcl, handleSubscribe]
    simp only [uiOnMessage, lookupKey_setKey, if_pos rfl, handleUnsubscribe]
    simp [lookupKey_setKey]
  have hpairN :
      (lookupKey cid ((uiOnMessage ((uiOnMessage s cid now1 o1 (UiMsg.subscribe subId name?)).1)
          cid now2 o2 (UiMsg.unsubscribe none)).1).uiClients).map
        (fun c => c.subscribedRobots) =
      some (setAdd (jsOrD subId "fordward") client.subscribedRobots) := by
    simp only [uiOnMessage, hcl, handleSubscribe]
    simp only [uiOnMessage, lookupKey_setKey, if_pos rfl, handleUnsubscribe]
    simp [lookupKey_setKey]
  refine ⟨?_, hpairN, ?_⟩
  · intro hnot
    rw [hpairS, setAdd_of_not_mem hnot, setDel_append_self hnot]
  · intro hmem
    rw [hpairS, setAdd_of_mem hmem]

/-- Witness for the amended C6 with both frames omitting `robotId` and an
empty prior subscription set: the pair leaves `["fordward"]` added. -/
theorem subscribe_unsubscribe_roundtrip_witness :
    ("fordward" ∉ emptyClient.subscribedRobots →
      (lookupKey "c2" ((uiOnMessage ((uiOnMessage emptySubState "c2" 10 (fun _ => true)
          (UiMsg.subscribe none none)).1)
          "c2" 11 (fun _ => true) (UiMsg.unsubscribe (some "fordward"))).1).uiClients).map
        (fun c => c.subscribedRobots) = some emptyClient.subscribedRobots) ∧
    ((lookupKey "c2" ((uiOnMessage ((uiOnMessage emptySubState "c2" 10 (fun _ => true)
          (UiMsg.subscribe none none)).1)
          "c2" 11 (fun _ => true) (UiMsg.unsubscribe none)).1).uiClients).map
        (fun c => c.subscribedRobots) = some (setAdd "fordward" emptyClient.subscribedRobots)) ∧
    ("fordward" ∈ emptyClient.subscribedRobots →
      (lookupKey "c2" ((uiOnMessage ((uiOnMessage emptySubState "c2" 10 (fun _ => true)
          (UiMsg.subscribe none none)).1)
          "c2" 11 (fun _ => true) (UiMsg.unsubscribe (some "fordward"))).1).uiClients).map
        (fun c => c.subscribedRobots) = some (setDel "fordward" emptyClient.subscribedRobots)) :=
  subscribe_unsubscribe_roundtrip emptySubState "c2" emptyClient 10 11 (fun _ => true)
    (fun _ => true) none none "fordward" (by decide) (by decide)
theorem leaseInv_handleHello (s : ServerState) (sockId : Nat) (fresh : String) (now : Nat)
    (m : HelloMsg) (h : LeaseInv s) : LeaseInv (handleHello s sockId fresh now m).2.1 := by
  intro p hp cid hc
  simp only [handleHello] at hp
  rcases mem_setKey hp with h' | h'
  · rw [h'] at hc
    simp [ControlLease.empty] at hc
  · exact h p h' cid hc

theorem leaseInv_handleTelemetry (s : ServerState) (sess : Option String) (now : Nat)
    (m : TelemetryMsg) (h : LeaseInv s) : LeaseInv (handleTelemetry s sess now m).2.1 := by
  unfold handleTelemetry
  dsimp only
  repeat' split
  all_goals first
    | exact h
    | (intro p hp c0 hc
       dsimp only at hp
       rcases mem_setKey hp with h' | h'
       · rw [h'] at hc
         dsimp only at hc
         exact h _ (lookupKey_mem (by assumption)) c0 hc
       · exact h p h' c0 hc)

theorem leaseInv_robotOnMessage (s : ServerState) (sess : Option String) (sockId : Nat)
    (fresh : String) (now : Nat) (m : RobotMsg) (h : LeaseInv s) :
    LeaseInv (robotOnMessage s sess sockId fresh now m).2.1 := by
  cases m with
  | hello m => exact leaseInv_handleHello s sockId fresh now m h
  | register m => exact leaseInv_handleHello s sockId fresh now m h
  | telemetry m => exact leaseInv_handleTelemetry s sess now m h
  | command_result m => exact h
  | other t => exact h

theorem leaseInv_robotOnClose (s : ServerState) (sess : Option String) (h : LeaseInv s) :
    LeaseInv (robotOnClose s sess).1 := by
  unfold robotOnClose
  repeat' split
  all_goals first
    | exact h
    | (intro p hp c0 hc
       dsimp only at hp
       exact h p (mem_delKey.mp hp).1 c0 hc)

theorem leaseInv_uiOnConnect (s : ServerState) (sockId : Nat) (cid : String) (now : Nat)
    (h : LeaseInv s) : LeaseInv (uiOnConnect s sockId cid now).1 := by
  intro p hp c0 hc
  simp only [uiOnConnect] at hp ⊢
  exact exists_key_setKey _ _ (h p hp c0 hc)

theorem leaseInv_handleSubscribe (s : ServerState) (cid : String) (client : ClientRecord)
    (rid? name? : Option String) (h : LeaseInv s) :
    LeaseInv (handleSubscribe s cid client rid? name?).1 := by
  intro p hp c0 hc
  simp only [handleSubscribe] at hp ⊢
  exact exists_key_setKey _ _ (h p hp c0 hc)

theorem leaseInv_handleUnsubscribe (s : ServerState) (cid : String) (client : ClientRecord)
    (rid? : Option String) (h : LeaseInv s) :
    LeaseInv (handleUnsubscribe s cid client rid?).1 := by
  intro p hp c0 hc
  simp only [handleUnsubscribe] at hp ⊢
  exact exists_key_setKey _ _ (h p hp c0 hc)

theorem leaseInv_handleControl (s : ServerState) (cid : String) (client : ClientRecord)
    (now : Nat) (rid? : Option String) (p? : Option CtrlPayload)
    (h : LeaseInv s) (hcl : lookupKey cid s.uiClients = some client) :
    LeaseInv (handleControl s cid client now rid? p?).1 := by
  have hex : ∃ q ∈ s.uiClients, q.1 = cid := ⟨(cid, client), lookupKey_mem hcl, rfl⟩
  unfold handleControl
  dsimp only
  repeat' split
  all_goals first
    | exact h
    | (intro p hp c0 hc
       dsimp only at hp
       rcases mem_setKey hp with h' | h'
       · rw [h'] at hc
         dsimp only at hc
         first
           | (cases hc <;> exact hex)
           | (exact h _ (lookupKey_mem (by assumption)) c0 hc)
       · exact h p h' c0 hc)

theorem leaseInv_handleCommand (s : ServerState) (cid : String) (client : ClientRecord)
    (now : Nat) (openSock : Nat → Bool) (rid? : Option String) (p? : Option CmdPayload)
    (h : LeaseInv s) : LeaseInv (handleCommand s cid client now openSock rid? p?).1 := by
  unfold handleCommand
  dsimp only
  repeat' split
  all_goals first
    | exact h
    | (intro p hp c0 hc
       dsimp only at hp
       rcases mem_setKey hp with h' | h'
       · rw [h'] at hc
         dsimp only at hc
         exact h _ (lookupKey_mem (by assumption)) c0 hc
       · exact h p h' c0 hc)

theorem leaseInv_uiOnMessage (s : ServerState) (cid : String) (now : Nat)
    (openSock : Nat → Bool) (m : UiMsg) (h : LeaseInv s) :
    LeaseInv (uiOnMessage s cid now openSock m).1 := by
  unfold uiOnMessage
  split
  · exact h
  · next client hcl =>
    cases m with
    | subscribe rid? name? => exact leaseInv_handleSubscribe s cid client rid? name? h
    | unsubscribe rid? => exact leaseInv_handleUnsubscribe s cid client rid? h
    | control rid? p? => exact leaseInv_handleControl s cid client now rid? p? h hcl
    | command rid? p? => exact leaseInv_handleCommand s cid client now openSock rid? p? h
    | ping => exact h
    | other t => exact h

theorem leaseInv_uiOnClose (s : ServerState) (cid : String) (h : LeaseInv s) :
    LeaseInv (uiOnClose s cid).1 := by
  intro p hp c0 hc
  simp only [uiOnClose] at hp ⊢
  rcases List.mem_map.mp hp with ⟨p0, hp0, hfp⟩
  by_cases hown : p0.2.control.ownerClientId = some cid
  · rw [if_pos hown] at hfp
    rw [← hfp] at hc
    simp [ControlLease.empty] at hc
  · rw [if_neg hown] at hfp
    subst hfp
    obtain ⟨q, hq, hqc⟩ := h p0 hp0 c0 hc
    refine ⟨q, mem_delKey.mpr ⟨hq, ?_⟩, hqc⟩
    rw [hqc]
    intro hco
    rw [hco] at hc
    exact hown hc

theorem leaseInv_reapStale (s : ServerState) (now : Nat) (h : LeaseInv s) :
    LeaseInv (reapStale s now).1 := by
  intro p hp c0 hc
  simp only [reapStale] at hp ⊢
  exact h p (List.mem_filter.mp hp).1 c0 hc

theorem leaseInv_reapIdle (s : ServerState) (now : Nat) (h : LeaseInv s) :
    LeaseInv (reapIdle s now).1 := by
  intro p hp c0 hc
  simp only [reapIdle] at hp ⊢
  rcases List.mem_map.mp hp with ⟨p0, hp0, hfp⟩
  by_cases hexp : idleExpired now p0.2.control = true
  · rw [if_pos hexp] at hfp
    rw [← hfp] at hc
    simp [ControlLease.empty] at hc
  · rw [if_neg hexp] at hfp
    subst hfp
    exact h p0 hp0 c0 hc

/-- Claim C4: the lease-liveness invariant — every owned lease names a
currently registered client — holds initially and is preserved by every
server step; and on a client's close, every lease it held is released (no
robot's lease names it afterwards), a `control_released` broadcast with
reason `"owner_disconnected"` is emitted for each robot it owned, and its
client record is removed. -/
theorem lease_owner_live (s : ServerState) (e : Ev) (h : LeaseInv s) :
    LeaseInv initState ∧
    LeaseInv (step s e).1 ∧
    ∀ cid, e = Ev.uiCloseEv cid →
      ((∀ p ∈ (step s e).1.robots, p.2.control.ownerClientId ≠ some cid) ∧
       lookupKey cid (step s e).1.uiClients = none ∧
       (∀ p ∈ s.robots, p.2.control.ownerClientId = some cid →
         Output.broadcastSubscribers (some p.1)
           (EventKind.control_released (some "owner_disconnected") none) ∈ (step s e).2)) := by
  refine ⟨?_, ?_, ?_⟩
  · intro p hp cid hc
    simp [initState] at hp
  · cases e with
    | robotMsgEv sockId sess fresh now m => exact leaseInv_robotOnMessage s sess sockId fresh now m h
    | robotCloseEv sess => exact leaseInv_robotOnClose s sess h
    | uiConnectEv sockId cid now => exact leaseInv_uiOnConnect s sockId cid now h
    | uiMsgEv cid now openSock m => exact leaseInv_uiOnMessage s cid now openSock m h
    | uiCloseEv cid => exact leaseInv_uiOnClose s cid h
    | staleReapEv now => exact leaseInv_reapStale s now h
    | idleReapEv now => exact leaseInv_reapIdle s now h
  · intro cid he
    subst he
    refine ⟨?_, ?_, ?_⟩
    · intro p hp
      simp only [step, uiOnClose] at hp
      rcases List.mem_map.mp hp with ⟨p0, hp0, hfp⟩
      by_cases hown : p0.2.control.ownerClientId = some cid
      · rw [if_pos hown] at hfp
        rw [← hfp]
        simp [ControlLease.empty]
      · rw [if_neg hown] at hfp
        rw [← hfp]
        exact hown
    · exact lookupKey_delKey_self cid s.uiClients
    · intro p hp hpown
      simp only [step, uiOnClose]
      refine List.mem_map_of_mem _ (List.mem_filter.mpr ⟨hp, ?_⟩)
      simp [hpown]

/-- Witness for C4 at the state where `"c1"` owns `"r1"` and the event is
`"c1"` closing: the invariant holds before and after, the lease is released
with the `owner_disconnected` broadcast, and the client record is removed. -/
theorem lease_owner_live_witness :
    LeaseInv ownedState ∧
    (LeaseInv initState ∧
     LeaseInv (step ownedState (Ev.uiCloseEv "c1")).1 ∧
     ∀ cid, Ev.uiCloseEv "c1" = Ev.uiCloseEv cid →
       ((∀ p ∈ (step ownedState (Ev.uiCloseEv "c1")).1.robots,
           p.2.control.ownerClientId ≠ some cid) ∧
        lookupKey cid (step ownedState (Ev.uiCloseEv "c1")).1.uiClients = none ∧
        (∀ p ∈ ownedState.robots, p.2.control.ownerClientId = some cid →
          Output.broadcastSubscribers (some p.1)
            (EventKind.control_released (some "owner_disconnected") none) ∈
            (step ownedState (Ev.uiCloseEv "c1")).2))) := by
  have hInv : LeaseInv ownedState := by
    intro p hp cid hc
    simp only [ownedState, List.mem_singleton] at hp
    subst hp
    have hcid : cid = "c1" := by
      have h2 := hc
      simp [ownedRobot, bareRobot] at h2
      exact h2.symm
    subst hcid
    exact ⟨("c1", clientC1), by simp [ownedState], rfl⟩
  exact ⟨hInv, lease_owner_live ownedState (Ev.uiCloseEv "c1") hInv⟩
